import Mathlib

/-!
Verification of `web/getbuild/handler.go`.

A shallow embedding of the build page handler `GetBuild` and of its helper
`getNames`.  The handler talks to five kinds of collaborator: the request,
the data client, the pipeline database, the logger and the template.  Every
call the handler makes on one of them is recorded, in program order, in a
trace of `Event`s; what the collaborators answer is supplied by the
environment (`Server`, `Client`, `PipelineDB`).
-/

namespace getbuild

/-! ## Data model -/

/-- A Go `error` value that is not nil; `Option GoError` is the Go type `error`. -/
structure GoError where
  msg : String
  deriving DecidableEq, Repr

/-- Modelled from the spec: `atc.Job`, declared in package `atc` outside the
handler file.  The handler reads only `Name`; `Payload` stands for every other
field of the record. -/
structure Job where
  Name : String
  Payload : Nat
  deriving DecidableEq, Repr

/-- Modelled from the spec: `atc.Build`, declared in package `atc` outside the
handler file.  The handler reads only `ID` (the numeric identifier used to
fetch the resources); `Payload` stands for every other field. -/
structure Build where
  ID : Int
  Payload : Nat
  deriving DecidableEq, Repr

/-- Modelled from the spec: `atc.PublicBuildInput`, declared in package `atc`
outside the handler file; the handler only passes these values on. -/
structure PublicBuildInput where
  Payload : Nat
  deriving DecidableEq, Repr

/-- Modelled from the spec: the value returned by `client.BuildResources`,
with its inputs and its outputs (the outputs are unused by the handler). -/
structure BuildInputsOutputs where
  Inputs : List PublicBuildInput
  Outputs : List Nat
  deriving DecidableEq, Repr

/-- Modelled from the spec: `atc.GroupConfig`, a named group with the names of
its member jobs. -/
structure GroupConfig where
  Name : String
  Jobs : List String
  deriving DecidableEq, Repr

/-- Modelled from the spec: `atc.Pipeline`, the pipeline record with its own
name and its ordered groups. -/
structure Pipeline where
  Name : String
  Groups : List GroupConfig
  deriving DecidableEq, Repr

/-- Modelled from the spec: `group.State`, declared in package `web/group`
outside the handler file: a group name and whether it is enabled. -/
structure State where
  Name : String
  Enabled : Bool
  deriving DecidableEq, Repr

/-- Modelled from the spec: `group.States`, declared in package `web/group`
outside the handler file.  One state per group, in the declared order of the
groups, enabled as the predicate says. -/
def States (groups : List GroupConfig) (enabled : GroupConfig → Bool) : List State :=
  groups.map (fun g => { Name := g.Name, Enabled := enabled g })

/-- The struct `TemplateData` (handler.go, lines 29-37). -/
structure TemplateData where
  GroupStates : List State
  Job : Job
  Builds : List Build
  Build : Build
  Inputs : List PublicBuildInput
  PipelineName : String
  deriving DecidableEq, Repr

/-! ## Collaborators -/

/-- An HTTP request, as far as the handler reads it: its form values. -/
structure Request where
  form : List (String × String)
  deriving DecidableEq, Repr

/-- The method `r.FormValue(key)`: the first value stored under the key, the
empty string when there is none. -/
def FormValue (r : Request) (key : String) : String :=
  match r.form.lookup key with
  | some v => v
  | none => ""

/-- The data client built for a request; every method returns the record, the
found flag and the error. -/
structure Client where
  Job : String → String → Job × Bool × Option GoError
  JobBuild : String → String → String → Build × Bool × Option GoError
  BuildResources : Int → BuildInputsOutputs × Bool × Option GoError
  JobBuilds : String → String → List Build × Bool × Option GoError
  Pipeline : String → Pipeline × Bool × Option GoError

/-- The interface `db.PipelineDB`, as far as the handler uses it. -/
structure PipelineDB where
  GetPipelineName : String

/-- The struct `server` (handler.go, lines 15-19).  The logger is observed
through the trace; `template` is what `template.Execute` returns for a view
model. -/
structure Server where
  clientFactory : Request → Client
  template : TemplateData → Option GoError

/-- Severities of the lager logger. -/
inductive LogLevel where
  | debug
  | info
  | error
  | fatal
  deriving DecidableEq, Repr

/-- The session opened by `server.logger.Session("get-build", ...)` with its
two data fields. -/
structure Session where
  task : String
  job : String
  build : String
  deriving DecidableEq, Repr

/-- One call of a logging method: the severity of the method (`Error` or
`Fatal`), the session of the logger it is called on (`none` for
`server.logger` itself), the action, the error, and the view model passed
under the key `template-data`.  What the logger then does with the entry is
outside the handler; the call of `Fatal` is the last statement of the handler. -/
structure LogEntry where
  level : LogLevel
  session : Option Session
  action : String
  err : GoError
  templateData : Option TemplateData
  deriving DecidableEq, Repr

/-- What the handler does to the outside, one constructor per kind of call. -/
inductive Event where
  | buildClient
  | callJob (pipelineName jobName : String)
  | callJobBuild (pipelineName jobName buildName : String)
  | callBuildResources (buildID : Int)
  | callJobBuilds (pipelineName jobName : String)
  | callPipeline (pipelineName : String)
  | getPipelineName
  | logged (entry : LogEntry)
  | writeHeader (code : Nat)
  | execute (templateData : TemplateData)
  deriving DecidableEq, Repr

/-- The constant `http.StatusBadRequest`. -/
def StatusBadRequest : Nat := 400

/-- The constant `http.StatusNotFound`. -/
def StatusNotFound : Nat := 404

/-- The constant `http.StatusInternalServerError`. -/
def StatusInternalServerError : Nat := 500

/-! ## The handler -/

/-- The Go builtin `len` on a string: its length in bytes. -/
def len (s : String) : Nat := s.utf8ByteSize

/-- The method `server.getNames` (handler.go, lines 39-49). -/
def getNames (r : Request) : String × String × String × Option GoError :=
  let pipelineName := FormValue r ":pipeline_name"
  let jobName := FormValue r ":job"
  let buildName := FormValue r ":build"
  if len pipelineName == 0 || len jobName == 0 || len buildName == 0 then
    (pipelineName, jobName, buildName, some ⟨"Missing required parameters"⟩)
  else
    (pipelineName, jobName, buildName, none)

/-- The loop of the closure passed to `group.States` (handler.go, lines
113-119): scan the job names of the group for the name of the job. -/
def groupJobsContain : List String → String → Bool
  | [], _ => false
  | groupJob :: rest, name => if groupJob == name then true else groupJobsContain rest name

/-- The method `server.GetBuild` (handler.go, lines 51-137), applied to a
request: the trace of the calls it makes, in order. -/
def GetBuild (server : Server) (pipelineDB : PipelineDB) (r : Request) : List Event :=
  let client := server.clientFactory r
  let t0 := [Event.buildClient]
  match getNames r with
  | (_, _, _, some err) =>
    t0 ++ [Event.logged ⟨LogLevel.error, none, "failed-to-get-names", err, none⟩,
           Event.writeHeader StatusBadRequest]
  | (pipelineName, jobName, buildName, none) =>
    let t1 := t0 ++ [Event.callJob pipelineName jobName]
    match client.Job pipelineName jobName with
    | (_, _, some err) =>
      t1 ++ [Event.logged ⟨LogLevel.error, none, "failed-to-load-job", err, none⟩,
             Event.writeHeader StatusInternalServerError]
    | (_, false, none) => t1 ++ [Event.writeHeader StatusNotFound]
    | (job, true, none) =>
      let log : Option Session := some ⟨"get-build", job.Name, buildName⟩
      let t2 := t1 ++ [Event.callJobBuild pipelineName jobName buildName]
      match client.JobBuild pipelineName jobName buildName with
      | (_, _, some err) =>
        t2 ++ [Event.logged ⟨LogLevel.error, log, "get-build-failed", err, none⟩,
               Event.writeHeader StatusInternalServerError]
      | (_, false, none) => t2 ++ [Event.writeHeader StatusNotFound]
      | (requestedBuild, true, none) =>
        let t3 := t2 ++ [Event.callBuildResources requestedBuild.ID]
        match client.BuildResources requestedBuild.ID with
        | (_, _, some err) =>
          t3 ++ [Event.logged ⟨LogLevel.error, log, "failed-to-get-build-resources", err, none⟩,
                 Event.writeHeader StatusInternalServerError]
        | (buildInputsOutputs, _, none) =>
          let t4 := t3 ++ [Event.callJobBuilds pipelineName jobName]
          match client.JobBuilds pipelineName jobName with
          | (_, _, some err) =>
            t4 ++ [Event.logged ⟨LogLevel.error, log, "get-all-builds-failed", err, none⟩,
                   Event.writeHeader StatusInternalServerError]
          | (bs, _, none) =>
            let t5 := t4 ++ [Event.callPipeline pipelineName]
            match client.Pipeline pipelineName with
            | (_, _, some err) =>
              t5 ++ [Event.logged ⟨LogLevel.error, log, "get-pipeline-failed", err, none⟩,
                     Event.writeHeader StatusInternalServerError]
            | (pipeline, _, none) =>
              let templateData : TemplateData :=
                { GroupStates := States pipeline.Groups
                    (fun g => groupJobsContain g.Jobs job.Name)
                  Job := job
                  Builds := bs
                  Build := requestedBuild
                  Inputs := buildInputsOutputs.Inputs
                  PipelineName := pipelineDB.GetPipelineName }
              let t6 := t5 ++ [Event.getPipelineName, Event.execute templateData]
              match server.template templateData with
              | some err =>
                t6 ++ [Event.logged
                  ⟨LogLevel.fatal, log, "failed-to-build-template", err, some templateData⟩]
              | none => t6

/-! ## Observations on a trace -/

/-- The status codes written with `w.WriteHeader`, in order. -/
def statuses (t : List Event) : List Nat :=
  t.filterMap (fun e => match e with
    | Event.writeHeader c => some c
    | _ => none)

/-- The log entries emitted, in order. -/
def logs (t : List Event) : List LogEntry :=
  t.filterMap (fun e => match e with
    | Event.logged l => some l
    | _ => none)

/-- The view models handed to `template.Execute`, in order. -/
def rendered (t : List Event) : List TemplateData :=
  t.filterMap (fun e => match e with
    | Event.execute td => some td
    | _ => none)

/-- Whether the event is a call of one of the five data fetches. -/
def Event.isFetch : Event → Bool
  | Event.callJob _ _ => true
  | Event.callJobBuild _ _ _ => true
  | Event.callBuildResources _ => true
  | Event.callJobBuilds _ _ => true
  | Event.callPipeline _ => true
  | _ => false

/-- The calls of the five data fetches, in order. -/
def fetches (t : List Event) : List Event := t.filter Event.isFetch

/-- How often the trace reads `pipelineDB.GetPipelineName()`. -/
def pipelineNameReads (t : List Event) : Nat := t.count Event.getPipelineName

/-! ## Predicates on the environment -/

/-- The three names are present in the request. -/
def NamesPresent (r : Request) : Prop :=
  FormValue r ":pipeline_name" ≠ "" ∧ FormValue r ":job" ≠ "" ∧ FormValue r ":build" ≠ ""

/-- One of the three names is missing from the request. -/
def NameMissing (r : Request) : Prop :=
  FormValue r ":pipeline_name" = "" ∨ FormValue r ":job" = "" ∨ FormValue r ":build" = ""

instance (r : Request) : Decidable (NamesPresent r) := by
  unfold NamesPresent; exact inferInstance

instance (r : Request) : Decidable (NameMissing r) := by
  unfold NameMissing; exact inferInstance

/-- The view model assembled by the handler from the fetched records. -/
def viewModel (pipelineDB : PipelineDB) (job : Job) (build : Build)
    (res : BuildInputsOutputs) (bs : List Build) (pl : Pipeline) : TemplateData :=
  { GroupStates := States pl.Groups (fun g => groupJobsContain g.Jobs job.Name)
    Job := job
    Builds := bs
    Build := build
    Inputs := res.Inputs
    PipelineName := pipelineDB.GetPipelineName }

/-- The log entries that follow the call of the template. -/
def renderLog (server : Server) (session : Session) (td : TemplateData) : List Event :=
  match server.template td with
  | some err =>
    [Event.logged ⟨LogLevel.fatal, some session, "failed-to-build-template", err, some td⟩]
  | none => []

/-- The five data fetches of the client, in the order of the handler. -/
inductive Step where
  | job
  | build
  | resources
  | history
  | pipeline
  deriving DecidableEq, Repr

/-- The data fetch that an event is a call of, if it is one. -/
def Event.fetchStep : Event → Option Step
  | Event.callJob _ _ => some Step.job
  | Event.callJobBuild _ _ _ => some Step.build
  | Event.callBuildResources _ => some Step.resources
  | Event.callJobBuilds _ _ => some Step.history
  | Event.callPipeline _ => some Step.pipeline
  | _ => none

/-- Which data fetches a trace calls, in order. -/
def fetchSteps (t : List Event) : List Step := t.filterMap Event.fetchStep

/-- The action under which the handler logs the failure of a fetch
(handler.go, lines 64, 80, 92, 99 and 106). -/
def Step.action : Step → String
  | Step.job => "failed-to-load-job"
  | Step.build => "get-build-failed"
  | Step.resources => "failed-to-get-build-resources"
  | Step.history => "get-all-builds-failed"
  | Step.pipeline => "get-pipeline-failed"

/-- The tag by which the specification names the failure of a fetch. -/
def Step.tag : Step → String
  | Step.job => "load-job"
  | Step.build => "get-build"
  | Step.resources => "get-build-resources"
  | Step.history => "get-all-builds"
  | Step.pipeline => "get-pipeline"

/-- The fetches up to and including a step, in the order of the handler. -/
def Step.upTo : Step → List Step
  | Step.job => [Step.job]
  | Step.build => [Step.job, Step.build]
  | Step.resources => [Step.job, Step.build, Step.resources]
  | Step.history => [Step.job, Step.build, Step.resources, Step.history]
  | Step.pipeline => [Step.job, Step.build, Step.resources, Step.history, Step.pipeline]

/-- All five fetches succeed for the request and return these records: the
names are present, the job and the build are found, and no fetch returns an
error. -/
def Succeeds (server : Server) (r : Request) (job : Job) (build : Build)
    (res : BuildInputsOutputs) (bs : List Build) (pl : Pipeline) : Prop :=
  NamesPresent r ∧
  (server.clientFactory r).Job (FormValue r ":pipeline_name") (FormValue r ":job")
    = (job, true, none) ∧
  (server.clientFactory r).JobBuild (FormValue r ":pipeline_name") (FormValue r ":job")
    (FormValue r ":build") = (build, true, none) ∧
  (∃ found, (server.clientFactory r).BuildResources build.ID = (res, found, none)) ∧
  (∃ found, (server.clientFactory r).JobBuilds (FormValue r ":pipeline_name")
    (FormValue r ":job") = (bs, found, none)) ∧
  (∃ found, (server.clientFactory r).Pipeline (FormValue r ":pipeline_name")
    = (pl, found, none))

/-- All five fetches succeed for the request. -/
def AllSucceed (server : Server) (r : Request) : Prop :=
  ∃ job build res bs pl, Succeeds server r job build res bs pl

/-- The names are present, every fetch before the step succeeds (job and build
found, no error) and the fetch of the step returns the error. -/
def FailsAt (server : Server) (r : Request) (err : GoError) : Step → Prop
  | Step.job =>
    NamesPresent r ∧
    ((server.clientFactory r).Job (FormValue r ":pipeline_name") (FormValue r ":job")).2.2
      = some err
  | Step.build =>
    NamesPresent r ∧ ∃ job,
    (server.clientFactory r).Job (FormValue r ":pipeline_name") (FormValue r ":job")
      = (job, true, none) ∧
    ((server.clientFactory r).JobBuild (FormValue r ":pipeline_name") (FormValue r ":job")
      (FormValue r ":build")).2.2 = some err
  | Step.resources =>
    NamesPresent r ∧ ∃ job build,
    (server.clientFactory r).Job (FormValue r ":pipeline_name") (FormValue r ":job")
      = (job, true, none) ∧
    (server.clientFactory r).JobBuild (FormValue r ":pipeline_name") (FormValue r ":job")
      (FormValue r ":build") = (build, true, none) ∧
    ((server.clientFactory r).BuildResources build.ID).2.2 = some err
  | Step.history =>
    NamesPresent r ∧ ∃ job build,
    (server.clientFactory r).Job (FormValue r ":pipeline_name") (FormValue r ":job")
      = (job, true, none) ∧
    (server.clientFactory r).JobBuild (FormValue r ":pipeline_name") (FormValue r ":job")
      (FormValue r ":build") = (build, true, none) ∧
    ((server.clientFactory r).BuildResources build.ID).2.2 = none ∧
    ((server.clientFactory r).JobBuilds (FormValue r ":pipeline_name")
      (FormValue r ":job")).2.2 = some err
  | Step.pipeline =>
    NamesPresent r ∧ ∃ job build,
    (server.clientFactory r).Job (FormValue r ":pipeline_name") (FormValue r ":job")
      = (job, true, none) ∧
    (server.clientFactory r).JobBuild (FormValue r ":pipeline_name") (FormValue r ":job")
      (FormValue r ":build") = (build, true, none) ∧
    ((server.clientFactory r).BuildResources build.ID).2.2 = none ∧
    ((server.clientFactory r).JobBuilds (FormValue r ":pipeline_name")
      (FormValue r ":job")).2.2 = none ∧
    ((server.clientFactory r).Pipeline (FormValue r ":pipeline_name")).2.2 = some err

/-- The client with the found flags of `BuildResources`, `JobBuilds` and
`Pipeline` replaced by other flags; records and errors are kept. -/
def Client.withFound (c : Client) (f1 : Int → Bool) (f2 : String → String → Bool)
    (f3 : String → Bool) : Client :=
  { Job := c.Job
    JobBuild := c.JobBuild
    BuildResources := fun id => ((c.BuildResources id).1, f1 id, (c.BuildResources id).2.2)
    JobBuilds := fun p j => ((c.JobBuilds p j).1, f2 p j, (c.JobBuilds p j).2.2)
    Pipeline := fun p => ((c.Pipeline p).1, f3 p, (c.Pipeline p).2.2) }

/-- The server whose clients have these three found flags replaced. -/
def Server.withFound (s : Server) (f1 : Int → Bool) (f2 : String → String → Bool)
    (f3 : String → Bool) : Server :=
  { clientFactory := fun r => (s.clientFactory r).withFound f1 f2 f3
    template := s.template }

/-! ## Fixtures -/

/-- A client that finds everything. -/
def okClient : Client where
  Job := fun _ j => (⟨j, 7⟩, true, none)
  JobBuild := fun _ _ _ => (⟨42, 1⟩, true, none)
  BuildResources := fun _ => (⟨[⟨5⟩], []⟩, true, none)
  JobBuilds := fun _ _ => ([⟨41, 0⟩, ⟨42, 1⟩], true, none)
  Pipeline := fun _ =>
    (⟨"other", [⟨"build", ["unit", "lint"]⟩, ⟨"deploy", ["release"]⟩]⟩, true, none)

/-- A server whose template renders every view model. -/
def okServer : Server where
  clientFactory := fun _ => okClient
  template := fun _ => none

/-- The pipeline database of the pipeline `main`. -/
def mainDB : PipelineDB := ⟨"main"⟩

/-- A request with all three names. -/
def fullRequest : Request := ⟨[(":pipeline_name", "p1"), (":job", "unit"), (":build", "3")]⟩

/-- A request without a build name. -/
def noBuildRequest : Request := ⟨[(":pipeline_name", "p1"), (":job", "unit")]⟩

/-- A request without any form value. -/
def emptyRequest : Request := ⟨[]⟩

/-- A server whose client does not find the job. -/
def jobMissingServer : Server where
  clientFactory := fun _ => { okClient with Job := fun _ j => (⟨j, 0⟩, false, none) }
  template := fun _ => none

/-- A server whose client finds the job and not the build. -/
def buildMissingServer : Server where
  clientFactory := fun _ => { okClient with JobBuild := fun _ _ _ => (⟨0, 0⟩, false, none) }
  template := fun _ => none

/-- A server whose client fails to fetch the resources, the history and the
pipeline. -/
def resourcesFailServer : Server where
  clientFactory := fun _ =>
    { okClient with
      BuildResources := fun _ => (⟨[], []⟩, true, some ⟨"resources unavailable"⟩)
      JobBuilds := fun _ _ => ([], false, some ⟨"history unavailable"⟩)
      Pipeline := fun _ => (⟨"", []⟩, false, some ⟨"pipeline unavailable"⟩) }
  template := fun _ => none

/-- A server whose client reports the job as not found together with an error. -/
def jobErrorServer : Server where
  clientFactory := fun _ =>
    { okClient with Job := fun _ j => (⟨j, 7⟩, false, some ⟨"connection refused"⟩) }
  template := fun _ => none

/-- A server whose client reports the build as not found together with an
error. -/
def buildErrorServer : Server where
  clientFactory := fun _ =>
    { okClient with JobBuild := fun _ _ _ => (⟨0, 0⟩, false, some ⟨"connection reset"⟩) }
  template := fun _ => none

/-- A server whose client is fine and whose template fails. -/
def renderFailServer : Server where
  clientFactory := fun _ => okClient
  template := fun _ => some ⟨"template: broken"⟩

/-! ## Basic facts -/

theorem len_eq_zero_iff (s : String) : len s = 0 ↔ s = "" := by
  cases s with
  | mk cs =>
    cases cs with
    | nil => simp [len, String.utf8ByteSize, String.utf8ByteSize.go]
    | cons c cs =>
      have hc := Char.utf8Size_pos c
      simp [len, String.utf8ByteSize, String.utf8ByteSize.go]
      constructor
      · intro h; omega
      · intro h; exact absurd (congrArg String.data h) (by simp)

theorem nameMissing_of_not_present (r : Request) (h : ¬ NamesPresent r) : NameMissing r := by
  unfold NamesPresent at h
  unfold NameMissing
  by_cases h1 : FormValue r ":pipeline_name" = ""
  · exact Or.inl h1
  · by_cases h2 : FormValue r ":job" = ""
    · exact Or.inr (Or.inl h2)
    · by_cases h3 : FormValue r ":build" = ""
      · exact Or.inr (Or.inr h3)
      · exact absurd ⟨h1, h2, h3⟩ h

theorem not_present_of_missing (r : Request) (h : NameMissing r) : ¬ NamesPresent r := by
  intro hp
  rcases h with h | h | h
  · exact hp.1 h
  · exact hp.2.1 h
  · exact hp.2.2 h

theorem getNames_of_present (r : Request) (h : NamesPresent r) :
    getNames r = (FormValue r ":pipeline_name", FormValue r ":job", FormValue r ":build", none) := by
  obtain ⟨h1, h2, h3⟩ := h
  simp [getNames, len_eq_zero_iff, h1, h2, h3]

theorem getNames_of_missing (r : Request) (h : NameMissing r) :
    getNames r = (FormValue r ":pipeline_name", FormValue r ":job", FormValue r ":build",
      some ⟨"Missing required parameters"⟩) := by
  rcases h with h | h | h <;> simp [getNames, len_eq_zero_iff, h]

theorem trace_missing (server : Server) (pipelineDB : PipelineDB) (r : Request)
    (h : NameMissing r) :
    GetBuild server pipelineDB r =
      [Event.buildClient,
       Event.logged ⟨LogLevel.error, none, "failed-to-get-names",
         ⟨"Missing required parameters"⟩, none⟩,
       Event.writeHeader 400] := by
  simp [GetBuild, getNames_of_missing r h, StatusBadRequest]

theorem trace_job_error (server : Server) (pipelineDB : PipelineDB) (r : Request)
    (h : NamesPresent r) (err : GoError)
    (hjob : ((server.clientFactory r).Job (FormValue r ":pipeline_name") (FormValue r ":job")).2.2
      = some err) :
    GetBuild server pipelineDB r =
      [Event.buildClient,
       Event.callJob (FormValue r ":pipeline_name") (FormValue r ":job"),
       Event.logged ⟨LogLevel.error, none, "failed-to-load-job", err, none⟩,
       Event.writeHeader 500] := by
  simp only [GetBuild, getNames_of_present r h]
  split <;> simp_all [StatusInternalServerError]

theorem trace_job_not_found (server : Server) (pipelineDB : PipelineDB) (r : Request)
    (h : NamesPresent r) (job : Job)
    (hjob : (server.clientFactory r).Job (FormValue r ":pipeline_name") (FormValue r ":job")
      = (job, false, none)) :
    GetBuild server pipelineDB r =
      [Event.buildClient,
       Event.callJob (FormValue r ":pipeline_name") (FormValue r ":job"),
       Event.writeHeader 404] := by
  simp [GetBuild, getNames_of_present r h, hjob, StatusNotFound]

theorem trace_build_error (server : Server) (pipelineDB : PipelineDB) (r : Request)
    (h : NamesPresent r) (job : Job) (err : GoError)
    (hjob : (server.clientFactory r).Job (FormValue r ":pipeline_name") (FormValue r ":job")
      = (job, true, none))
    (hbuild : ((server.clientFactory r).JobBuild (FormValue r ":pipeline_name")
      (FormValue r ":job") (FormValue r ":build")).2.2 = some err) :
    GetBuild server pipelineDB r =
      [Event.buildClient,
       Event.callJob (FormValue r ":pipeline_name") (FormValue r ":job"),
       Event.callJobBuild (FormValue r ":pipeline_name") (FormValue r ":job")
         (FormValue r ":build"),
       Event.logged ⟨LogLevel.error, some ⟨"get-build", job.Name, FormValue r ":build"⟩,
         "get-build-failed", err, none⟩,
       Event.writeHeader 500] := by
  simp only [GetBuild, getNames_of_present r h, hjob]
  split <;> simp_all [StatusInternalServerError]

theorem trace_build_not_found (server : Server) (pipelineDB : PipelineDB) (r : Request)
    (h : NamesPresent r) (job : Job) (build : Build)
    (hjob : (server.clientFactory r).Job (FormValue r ":pipeline_name") (FormValue r ":job")
      = (job, true, none))
    (hbuild : (server.clientFactory r).JobBuild (FormValue r ":pipeline_name")
      (FormValue r ":job") (FormValue r ":build") = (build, false, none)) :
    GetBuild server pipelineDB r =
      [Event.buildClient,
       Event.callJob (FormValue r ":pipeline_name") (FormValue r ":job"),
       Event.callJobBuild (FormValue r ":pipeline_name") (FormValue r ":job")
         (FormValue r ":build"),
       Event.writeHeader 404] := by
  simp [GetBuild, getNames_of_present r h, hjob, hbuild, StatusNotFound]

theorem trace_resources_error (server : Server) (pipelineDB : PipelineDB) (r : Request)
    (h : NamesPresent r) (job : Job) (build : Build) (err : GoError)
    (hjob : (server.clientFactory r).Job (FormValue r ":pipeline_name") (FormValue r ":job")
      = (job, true, none))
    (hbuild : (server.clientFactory r).JobBuild (FormValue r ":pipeline_name")
      (FormValue r ":job") (FormValue r ":build") = (build, true, none))
    (hres : ((server.clientFactory r).BuildResources build.ID).2.2 = some err) :
    GetBuild server pipelineDB r =
      [Event.buildClient,
       Event.callJob (FormValue r ":pipeline_name") (FormValue r ":job"),
       Event.callJobBuild (FormValue r ":pipeline_name") (FormValue r ":job")
         (FormValue r ":build"),
       Event.callBuildResources build.ID,
       Event.logged ⟨LogLevel.error, some ⟨"get-build", job.Name, FormValue r ":build"⟩,
         "failed-to-get-build-resources", err, none⟩,
       Event.writeHeader 500] := by
  simp only [GetBuild, getNames_of_present r h, hjob, hbuild]
  split <;> simp_all [StatusInternalServerError]

theorem trace_history_error (server : Server) (pipelineDB : PipelineDB) (r : Request)
    (h : NamesPresent r) (job : Job) (build : Build) (err : GoError)
    (hjob : (server.clientFactory r).Job (FormValue r ":pipeline_name") (FormValue r ":job")
      = (job, true, none))
    (hbuild : (server.clientFactory r).JobBuild (FormValue r ":pipeline_name")
      (FormValue r ":job") (FormValue r ":build") = (build, true, none))
    (hres : ((server.clientFactory r).BuildResources build.ID).2.2 = none)
    (hbs : ((server.clientFactory r).JobBuilds (FormValue r ":pipeline_name")
      (FormValue r ":job")).2.2 = some err) :
    GetBuild server pipelineDB r =
      [Event.buildClient,
       Event.callJob (FormValue r ":pipeline_name") (FormValue r ":job"),
       Event.callJobBuild (FormValue r ":pipeline_name") (FormValue r ":job")
         (FormValue r ":build"),
       Event.callBuildResources build.ID,
       Event.callJobBuilds (FormValue r ":pipeline_name") (FormValue r ":job"),
       Event.logged ⟨LogLevel.error, some ⟨"get-build", job.Name, FormValue r ":build"⟩,
         "get-all-builds-failed", err, none⟩,
       Event.writeHeader 500] := by
  simp only [GetBuild, getNames_of_present r h, hjob, hbuild]
  split
  · simp_all
  · split <;> simp_all [StatusInternalServerError]

theorem trace_pipeline_error (server : Server) (pipelineDB : PipelineDB) (r : Request)
    (h : NamesPresent r) (job : Job) (build : Build) (err : GoError)
    (hjob : (server.clientFactory r).Job (FormValue r ":pipeline_name") (FormValue r ":job")
      = (job, true, none))
    (hbuild : (server.clientFactory r).JobBuild (FormValue r ":pipeline_name")
      (FormValue r ":job") (FormValue r ":build") = (build, true, none))
    (hres : ((server.clientFactory r).BuildResources build.ID).2.2 = none)
    (hbs : ((server.clientFactory r).JobBuilds (FormValue r ":pipeline_name")
      (FormValue r ":job")).2.2 = none)
    (hpl : ((server.clientFactory r).Pipeline (FormValue r ":pipeline_name")).2.2 = some err) :
    GetBuild server pipelineDB r =
      [Event.buildClient,
       Event.callJob (FormValue r ":pipeline_name") (FormValue r ":job"),
       Event.callJobBuild (FormValue r ":pipeline_name") (FormValue r ":job")
         (FormValue r ":build"),
       Event.callBuildResources build.ID,
       Event.callJobBuilds (FormValue r ":pipeline_name") (FormValue r ":job"),
       Event.callPipeline (FormValue r ":pipeline_name"),
       Event.logged ⟨LogLevel.error, some ⟨"get-build", job.Name, FormValue r ":build"⟩,
         "get-pipeline-failed", err, none⟩,
       Event.writeHeader 500] := by
  simp only [GetBuild, getNames_of_present r h, hjob, hbuild]
  split
  · simp_all
  · split
    · simp_all
    · split <;> simp_all [StatusInternalServerError]

theorem trace_success (server : Server) (pipelineDB : PipelineDB) (r : Request)
    (h : NamesPresent r) (job : Job) (build : Build) (res : BuildInputsOutputs)
    (bs : List Build) (pl : Pipeline) (f1 f2 f3 : Bool)
    (hjob : (server.clientFactory r).Job (FormValue r ":pipeline_name") (FormValue r ":job")
      = (job, true, none))
    (hbuild : (server.clientFactory r).JobBuild (FormValue r ":pipeline_name")
      (FormValue r ":job") (FormValue r ":build") = (build, true, none))
    (hres : (server.clientFactory r).BuildResources build.ID = (res, f1, none))
    (hbs : (server.clientFactory r).JobBuilds (FormValue r ":pipeline_name")
      (FormValue r ":job") = (bs, f2, none))
    (hpl : (server.clientFactory r).Pipeline (FormValue r ":pipeline_name") = (pl, f3, none)) :
    GetBuild server pipelineDB r =
      [Event.buildClient,
       Event.callJob (FormValue r ":pipeline_name") (FormValue r ":job"),
       Event.callJobBuild (FormValue r ":pipeline_name") (FormValue r ":job")
         (FormValue r ":build"),
       Event.callBuildResources build.ID,
       Event.callJobBuilds (FormValue r ":pipeline_name") (FormValue r ":job"),
       Event.callPipeline (FormValue r ":pipeline_name"),
       Event.getPipelineName,
       Event.execute (viewModel pipelineDB job build res bs pl)]
      ++ renderLog server ⟨"get-build", job.Name, FormValue r ":build"⟩
          (viewModel pipelineDB job build res bs pl) := by
  simp only [GetBuild, getNames_of_present r h, hjob, hbuild, hres, hbs, hpl, renderLog,
    viewModel]
  split <;> simp_all

/-! ## Rejected requests -/

/-- C1: when one of the values `:pipeline_name`, `:job`, `:build` is the empty
string, the handler writes status 400 and nothing else, calls none of the five
data fetches, does not read the current pipeline name and does not execute the
template; and `getNames` returns an error exactly when one of the three values
is empty. -/
theorem missing_parameters_bad_request (server : Server) (pipelineDB : PipelineDB)
    (r : Request) :
    ((getNames r).2.2.2 ≠ none ↔
      (FormValue r ":pipeline_name" = "" ∨ FormValue r ":job" = "" ∨
        FormValue r ":build" = "")) ∧
    ((FormValue r ":pipeline_name" = "" ∨ FormValue r ":job" = "" ∨
        FormValue r ":build" = "") →
      statuses (GetBuild server pipelineDB r) = [400] ∧
      fetches (GetBuild server pipelineDB r) = [] ∧
      fetchSteps (GetBuild server pipelineDB r) = [] ∧
      pipelineNameReads (GetBuild server pipelineDB r) = 0 ∧
      rendered (GetBuild server pipelineDB r) = []) := by
  constructor
  · by_cases h : NamesPresent r
    · rw [getNames_of_present r h]
      have hn := not_present_of_missing r
      unfold NameMissing at hn
      constructor
      · intro hc; exact absurd rfl hc
      · intro hm; exact absurd h (hn hm)
    · have hm := nameMissing_of_not_present r h
      rw [getNames_of_missing r hm]
      unfold NameMissing at hm
      simp [hm]
  · intro hm
    rw [trace_missing server pipelineDB r hm]
    decide

theorem missing_parameters_bad_request_witness :
    FormValue noBuildRequest ":build" = "" ∧
    statuses (GetBuild okServer mainDB noBuildRequest) = [400] ∧
    fetches (GetBuild okServer mainDB noBuildRequest) = [] ∧
    fetchSteps (GetBuild okServer mainDB noBuildRequest) = [] ∧
    pipelineNameReads (GetBuild okServer mainDB noBuildRequest) = 0 ∧
    rendered (GetBuild okServer mainDB noBuildRequest) = [] :=
  ⟨by decide,
    (missing_parameters_bad_request okServer mainDB noBuildRequest).2
      (Or.inr (Or.inr (by decide)))⟩

/-- C2: with three non-empty names, when the job lookup returns no error and
found = false, the handler writes status 404 and nothing else, logs nothing,
calls no fetch other than the job lookup and does not execute the template. -/
theorem job_not_found (server : Server) (pipelineDB : PipelineDB) (r : Request) (job : Job)
    (hp : FormValue r ":pipeline_name" ≠ "") (hj : FormValue r ":job" ≠ "")
    (hb : FormValue r ":build" ≠ "")
    (hjob : (server.clientFactory r).Job (FormValue r ":pipeline_name") (FormValue r ":job")
      = (job, false, none)) :
    statuses (GetBuild server pipelineDB r) = [404] ∧
    logs (GetBuild server pipelineDB r) = [] ∧
    fetches (GetBuild server pipelineDB r)
      = [Event.callJob (FormValue r ":pipeline_name") (FormValue r ":job")] ∧
    fetchSteps (GetBuild server pipelineDB r) = [Step.job] ∧
    rendered (GetBuild server pipelineDB r) = [] := by
  rw [trace_job_not_found server pipelineDB r ⟨hp, hj, hb⟩ job hjob]
  simp [statuses, logs, fetches, fetchSteps, rendered, Event.isFetch, Event.fetchStep]

theorem job_not_found_witness :
    (FormValue fullRequest ":pipeline_name" ≠ "" ∧ FormValue fullRequest ":job" ≠ "" ∧
      FormValue fullRequest ":build" ≠ "" ∧
      (jobMissingServer.clientFactory fullRequest).Job "p1" "unit" = (⟨"unit", 0⟩, false, none)) ∧
    statuses (GetBuild jobMissingServer mainDB fullRequest) = [404] ∧
    logs (GetBuild jobMissingServer mainDB fullRequest) = [] ∧
    fetches (GetBuild jobMissingServer mainDB fullRequest) = [Event.callJob "p1" "unit"] ∧
    fetchSteps (GetBuild jobMissingServer mainDB fullRequest) = [Step.job] ∧
    rendered (GetBuild jobMissingServer mainDB fullRequest) = [] :=
  ⟨by decide, job_not_found jobMissingServer mainDB fullRequest ⟨"unit", 0⟩
    (by decide) (by decide) (by decide) (by decide)⟩

/-- C3: with three non-empty names and the job found without error, when the
build lookup returns no error and found = false, the handler writes status 404
and nothing else, logs nothing, calls no fetch after the build lookup and does
not execute the template. -/
theorem build_not_found (server : Server) (pipelineDB : PipelineDB) (r : Request) (job : Job)
    (build : Build)
    (hp : FormValue r ":pipeline_name" ≠ "") (hj : FormValue r ":job" ≠ "")
    (hb : FormValue r ":build" ≠ "")
    (hjob : (server.clientFactory r).Job (FormValue r ":pipeline_name") (FormValue r ":job")
      = (job, true, none))
    (hbuild : (server.clientFactory r).JobBuild (FormValue r ":pipeline_name")
      (FormValue r ":job") (FormValue r ":build") = (build, false, none)) :
    statuses (GetBuild server pipelineDB r) = [404] ∧
    logs (GetBuild server pipelineDB r) = [] ∧
    fetches (GetBuild server pipelineDB r)
      = [Event.callJob (FormValue r ":pipeline_name") (FormValue r ":job"),
         Event.callJobBuild (FormValue r ":pipeline_name") (FormValue r ":job")
           (FormValue r ":build")] ∧
    fetchSteps (GetBuild server pipelineDB r) = [Step.job, Step.build] ∧
    rendered (GetBuild server pipelineDB r) = [] := by
  rw [trace_build_not_found server pipelineDB r ⟨hp, hj, hb⟩ job build hjob hbuild]
  simp [statuses, logs, fetches, fetchSteps, rendered, Event.isFetch, Event.fetchStep]

theorem build_not_found_witness :
    (FormValue fullRequest ":pipeline_name" ≠ "" ∧ FormValue fullRequest ":job" ≠ "" ∧
      FormValue fullRequest ":build" ≠ "" ∧
      (buildMissingServer.clientFactory fullRequest).Job "p1" "unit" = (⟨"unit", 7⟩, true, none) ∧
      (buildMissingServer.clientFactory fullRequest).JobBuild "p1" "unit" "3"
        = (⟨0, 0⟩, false, none)) ∧
    statuses (GetBuild buildMissingServer mainDB fullRequest) = [404] ∧
    logs (GetBuild buildMissingServer mainDB fullRequest) = [] ∧
    fetches (GetBuild buildMissingServer mainDB fullRequest)
      = [Event.callJob "p1" "unit", Event.callJobBuild "p1" "unit" "3"] ∧
    fetchSteps (GetBuild buildMissingServer mainDB fullRequest) = [Step.job, Step.build] ∧
    rendered (GetBuild buildMissingServer mainDB fullRequest) = [] :=
  ⟨by decide, build_not_found buildMissingServer mainDB fullRequest ⟨"unit", 7⟩ ⟨0, 0⟩
    (by decide) (by decide) (by decide) (by decide) (by decide)⟩

/-! ## The view model -/

theorem groupJobsContain_iff (jobs : List String) (name : String) :
    groupJobsContain jobs name = true ↔ name ∈ jobs := by
  induction jobs with
  | nil => simp [groupJobsContain]
  | cons groupJob rest ih =>
    by_cases h : groupJob = name
    · simp [groupJobsContain, h]
    · have h2 : ¬ name = groupJob := fun e => h e.symm
      simp [groupJobsContain, h, h2, ih]

theorem succeeds_trace (server : Server) (pipelineDB : PipelineDB) (r : Request) (job : Job)
    (build : Build) (res : BuildInputsOutputs) (bs : List Build) (pl : Pipeline)
    (h : Succeeds server r job build res bs pl) :
    GetBuild server pipelineDB r =
      [Event.buildClient,
       Event.callJob (FormValue r ":pipeline_name") (FormValue r ":job"),
       Event.callJobBuild (FormValue r ":pipeline_name") (FormValue r ":job")
         (FormValue r ":build"),
       Event.callBuildResources build.ID,
       Event.callJobBuilds (FormValue r ":pipeline_name") (FormValue r ":job"),
       Event.callPipeline (FormValue r ":pipeline_name"),
       Event.getPipelineName,
       Event.execute (viewModel pipelineDB job build res bs pl)]
      ++ renderLog server ⟨"get-build", job.Name, FormValue r ":build"⟩
          (viewModel pipelineDB job build res bs pl) := by
  obtain ⟨hn, hjob, hbuild, ⟨f1, hres⟩, ⟨f2, hbs⟩, ⟨f3, hpl⟩⟩ := h
  exact trace_success server pipelineDB r hn job build res bs pl f1 f2 f3 hjob hbuild hres hbs hpl

theorem rendered_renderLog (server : Server) (session : Session) (td : TemplateData) :
    rendered (renderLog server session td) = [] := by
  unfold renderLog
  split <;> simp [rendered]

theorem statuses_renderLog (server : Server) (session : Session) (td : TemplateData) :
    statuses (renderLog server session td) = [] := by
  unfold renderLog
  split <;> simp [statuses]

theorem fetches_renderLog (server : Server) (session : Session) (td : TemplateData) :
    fetches (renderLog server session td) = [] := by
  unfold renderLog
  split <;> simp [fetches, Event.isFetch]

theorem fetchSteps_renderLog (server : Server) (session : Session) (td : TemplateData) :
    fetchSteps (renderLog server session td) = [] := by
  unfold renderLog
  split <;> simp [fetchSteps, Event.fetchStep]

theorem succeeds_rendered (server : Server) (pipelineDB : PipelineDB) (r : Request) (job : Job)
    (build : Build) (res : BuildInputsOutputs) (bs : List Build) (pl : Pipeline)
    (h : Succeeds server r job build res bs pl) :
    rendered (GetBuild server pipelineDB r) = [viewModel pipelineDB job build res bs pl] := by
  rw [succeeds_trace server pipelineDB r job build res bs pl h]
  have hr := rendered_renderLog server ⟨"get-build", job.Name, FormValue r ":build"⟩
    (viewModel pipelineDB job build res bs pl)
  unfold rendered at hr ⊢
  rw [List.filterMap_append, hr]
  simp

/-- C4: when all fetches succeed with pipeline `pl` and job `job`, the view
model handed to the template has one group state per group of `pl`, in the
order of the groups: the state at position `i` carries the name of the group
at position `i` and is enabled exactly when `job.Name` occurs among the jobs of
that group.  The membership test of the handler is true exactly when some
job name of the group equals the name, hence false for an empty job list. -/
theorem group_states_follow_groups (server : Server) (pipelineDB : PipelineDB) (r : Request)
    (job : Job) (build : Build) (res : BuildInputsOutputs) (bs : List Build) (pl : Pipeline)
    (h : Succeeds server r job build res bs pl) :
    (∀ (jobs : List String) (name : String),
      groupJobsContain jobs name = true ↔ ∃ groupJob ∈ jobs, groupJob = name) ∧
    (∀ name : String, groupJobsContain [] name = false) ∧
    ∃ td, rendered (GetBuild server pipelineDB r) = [td] ∧
      td.GroupStates.length = pl.Groups.length ∧
      td.GroupStates.map (fun st => st.Name) = pl.Groups.map (fun g => g.Name) ∧
      ∀ (i : Nat) (g : GroupConfig), pl.Groups[i]? = some g →
        ∃ st, td.GroupStates[i]? = some st ∧ st.Name = g.Name ∧
          (st.Enabled = true ↔ job.Name ∈ g.Jobs) := by
  refine ⟨?_, ?_, viewModel pipelineDB job build res bs pl,
    succeeds_rendered server pipelineDB r job build res bs pl h, ?_, ?_, ?_⟩
  · intro jobs name
    rw [groupJobsContain_iff]
    simp
  · intro name
    rfl
  · simp [viewModel, States]
  · simp [viewModel, States]
  · intro i g hg
    refine ⟨⟨g.Name, groupJobsContain g.Jobs job.Name⟩, ?_, rfl, ?_⟩
    · simp [viewModel, States, hg]
    · exact groupJobsContain_iff g.Jobs job.Name

theorem okServer_succeeds :
    Succeeds okServer fullRequest ⟨"unit", 7⟩ ⟨42, 1⟩ ⟨[⟨5⟩], []⟩ [⟨41, 0⟩, ⟨42, 1⟩]
      ⟨"other", [⟨"build", ["unit", "lint"]⟩, ⟨"deploy", ["release"]⟩]⟩ :=
  ⟨by decide, by decide, by decide, ⟨true, by decide⟩, ⟨true, by decide⟩, ⟨true, by decide⟩⟩

theorem group_states_follow_groups_witness :
    Succeeds okServer fullRequest ⟨"unit", 7⟩ ⟨42, 1⟩ ⟨[⟨5⟩], []⟩ [⟨41, 0⟩, ⟨42, 1⟩]
      ⟨"other", [⟨"build", ["unit", "lint"]⟩, ⟨"deploy", ["release"]⟩]⟩ ∧
    (rendered (GetBuild okServer mainDB fullRequest)).map (fun td => td.GroupStates)
      = [[⟨"build", true⟩, ⟨"deploy", false⟩]] ∧
    ∃ td, rendered (GetBuild okServer mainDB fullRequest) = [td] ∧
      td.GroupStates.length = 2 :=
  ⟨okServer_succeeds, by decide,
    (group_states_follow_groups okServer mainDB fullRequest ⟨"unit", 7⟩ ⟨42, 1⟩ ⟨[⟨5⟩], []⟩
      [⟨41, 0⟩, ⟨42, 1⟩] ⟨"other", [⟨"build", ["unit", "lint"]⟩, ⟨"deploy", ["release"]⟩]⟩
      okServer_succeeds).2.2.imp (fun _ htd => ⟨htd.1, htd.2.1⟩)⟩

/-- C6: when the three names are present, job and build are found and no fetch
returns an error, the template is executed exactly once, with a view model
whose `Job`, `Build`, `Builds` and `Inputs` are the fetched job, the fetched
build, the fetched history (the same list) and the inputs of the fetched
resources, and whose `PipelineName` is `pipelineDB.GetPipelineName()`: the same
for every request, client and fetched pipeline record that succeed with this
`pipelineDB`. -/
theorem view_model_fields (server : Server) (pipelineDB : PipelineDB) (r : Request)
    (job : Job) (build : Build) (res : BuildInputsOutputs) (bs : List Build) (pl : Pipeline)
    (h : Succeeds server r job build res bs pl) :
    (∃ td, rendered (GetBuild server pipelineDB r) = [td] ∧
      td.Job = job ∧ td.Build = build ∧ td.Builds = bs ∧ td.Inputs = res.Inputs ∧
      td.PipelineName = pipelineDB.GetPipelineName) ∧
    (∀ (server2 : Server) (r2 : Request) (job2 : Job) (build2 : Build)
      (res2 : BuildInputsOutputs) (bs2 : List Build) (pl2 : Pipeline),
      Succeeds server2 r2 job2 build2 res2 bs2 pl2 →
      (rendered (GetBuild server2 pipelineDB r2)).map (fun td => td.PipelineName)
        = (rendered (GetBuild server pipelineDB r)).map (fun td => td.PipelineName)) := by
  constructor
  · exact ⟨viewModel pipelineDB job build res bs pl,
      succeeds_rendered server pipelineDB r job build res bs pl h, rfl, rfl, rfl, rfl, rfl⟩
  · intro server2 r2 job2 build2 res2 bs2 pl2 h2
    rw [succeeds_rendered server pipelineDB r job build res bs pl h,
      succeeds_rendered server2 pipelineDB r2 job2 build2 res2 bs2 pl2 h2]
    rfl

theorem view_model_fields_witness :
    Succeeds okServer fullRequest ⟨"unit", 7⟩ ⟨42, 1⟩ ⟨[⟨5⟩], []⟩ [⟨41, 0⟩, ⟨42, 1⟩]
      ⟨"other", [⟨"build", ["unit", "lint"]⟩, ⟨"deploy", ["release"]⟩]⟩ ∧
    FormValue fullRequest ":pipeline_name" = "p1" ∧
    ∃ td, rendered (GetBuild okServer mainDB fullRequest) = [td] ∧
      td.Job = ⟨"unit", 7⟩ ∧ td.Build = ⟨42, 1⟩ ∧ td.Builds = [⟨41, 0⟩, ⟨42, 1⟩] ∧
      td.Inputs = [⟨5⟩] ∧ td.PipelineName = "main" :=
  ⟨okServer_succeeds, by decide,
    (view_model_fields okServer mainDB fullRequest ⟨"unit", 7⟩ ⟨42, 1⟩ ⟨[⟨5⟩], []⟩
      [⟨41, 0⟩, ⟨42, 1⟩] ⟨"other", [⟨"build", ["unit", "lint"]⟩, ⟨"deploy", ["release"]⟩]⟩
      okServer_succeeds).1⟩

/-! ## Failing fetches -/

theorem tag_in_action (step : Step) : step.tag.data <:+: step.action.data := by
  cases step
  · exact ⟨"failed-to-".data, [], rfl⟩
  · exact ⟨[], "-failed".data, rfl⟩
  · exact ⟨"failed-to-".data, [], rfl⟩
  · exact ⟨[], "-failed".data, rfl⟩
  · exact ⟨[], "-failed".data, rfl⟩

theorem failsAt_outcome (server : Server) (pipelineDB : PipelineDB) (r : Request)
    (step : Step) (err : GoError) (h : FailsAt server r err step) :
    statuses (GetBuild server pipelineDB r) = [500] ∧
    (∃ entry, logs (GetBuild server pipelineDB r) = [entry] ∧
      entry.level = LogLevel.error ∧ entry.action = step.action ∧ entry.err = err ∧
      step.tag.data <:+: entry.action.data) ∧
    fetchSteps (GetBuild server pipelineDB r) = step.upTo ∧
    rendered (GetBuild server pipelineDB r) = [] := by
  cases step
  · obtain ⟨hn, hjob⟩ := h
    rw [trace_job_error server pipelineDB r hn err hjob]
    refine ⟨by simp [statuses], ⟨_, rfl, rfl, rfl, rfl, tag_in_action Step.job⟩,
      by simp [fetchSteps, Event.fetchStep, Step.upTo], by simp [rendered]⟩
  · obtain ⟨hn, job, hjob, hbuild⟩ := h
    rw [trace_build_error server pipelineDB r hn job err hjob hbuild]
    refine ⟨by simp [statuses], ⟨_, rfl, rfl, rfl, rfl, tag_in_action Step.build⟩,
      by simp [fetchSteps, Event.fetchStep, Step.upTo], by simp [rendered]⟩
  · obtain ⟨hn, job, build, hjob, hbuild, hres⟩ := h
    rw [trace_resources_error server pipelineDB r hn job build err hjob hbuild hres]
    refine ⟨by simp [statuses],
      ⟨_, rfl, rfl, rfl, rfl, tag_in_action Step.resources⟩,
      by simp [fetchSteps, Event.fetchStep, Step.upTo], by simp [rendered]⟩
  · obtain ⟨hn, job, build, hjob, hbuild, hres, hbs⟩ := h
    rw [trace_history_error server pipelineDB r hn job build err hjob hbuild hres hbs]
    refine ⟨by simp [statuses], ⟨_, rfl, rfl, rfl, rfl, tag_in_action Step.history⟩,
      by simp [fetchSteps, Event.fetchStep, Step.upTo], by simp [rendered]⟩
  · obtain ⟨hn, job, build, hjob, hbuild, hres, hbs, hpl⟩ := h
    rw [trace_pipeline_error server pipelineDB r hn job build err hjob hbuild hres hbs hpl]
    refine ⟨by simp [statuses],
      ⟨_, rfl, rfl, rfl, rfl, tag_in_action Step.pipeline⟩,
      by simp [fetchSteps, Event.fetchStep, Step.upTo], by simp [rendered]⟩

/-- C5: for each of the five fetches, when the names are present, every earlier
fetch succeeded and this fetch returns an error, the handler writes status 500
and nothing else, logs exactly one entry, at error severity, whose action is
the action of that step in the handler (`failed-to-load-job`,
`get-build-failed`, `failed-to-get-build-resources`, `get-all-builds-failed`,
`get-pipeline-failed`), which contains the tag of the step (`load-job`,
`get-build`, `get-build-resources`, `get-all-builds`, `get-pipeline`), and
whose error is the error returned; it calls no later fetch and does not execute
the template.  Nothing is assumed about the fetches after the failing one. -/
theorem upstream_failure (server : Server) (pipelineDB : PipelineDB) (r : Request)
    (step : Step) (err : GoError) (h : FailsAt server r err step) :
    statuses (GetBuild server pipelineDB r) = [500] ∧
    (∃ entry, logs (GetBuild server pipelineDB r) = [entry] ∧
      entry.level = LogLevel.error ∧ entry.action = step.action ∧ entry.err = err ∧
      step.tag.data <:+: entry.action.data) ∧
    fetchSteps (GetBuild server pipelineDB r) = step.upTo ∧
    rendered (GetBuild server pipelineDB r) = [] :=
  failsAt_outcome server pipelineDB r step err h

theorem upstream_failure_witness :
    FailsAt resourcesFailServer fullRequest ⟨"resources unavailable"⟩ Step.resources ∧
    statuses (GetBuild resourcesFailServer mainDB fullRequest) = [500] ∧
    logs (GetBuild resourcesFailServer mainDB fullRequest)
      = [⟨LogLevel.error, some ⟨"get-build", "unit", "3"⟩, "failed-to-get-build-resources",
          ⟨"resources unavailable"⟩, none⟩] ∧
    fetchSteps (GetBuild resourcesFailServer mainDB fullRequest)
      = [Step.job, Step.build, Step.resources] ∧
    rendered (GetBuild resourcesFailServer mainDB fullRequest) = [] :=
  have hf : FailsAt resourcesFailServer fullRequest ⟨"resources unavailable"⟩ Step.resources :=
    ⟨by decide, ⟨"unit", 7⟩, ⟨42, 1⟩, by decide, by decide, by decide⟩
  have hu := upstream_failure resourcesFailServer mainDB fullRequest Step.resources
    ⟨"resources unavailable"⟩ hf
  ⟨hf, hu.1, by decide, hu.2.2.1, hu.2.2.2⟩

/-! ## Every request -/

theorem classify (server : Server) (r : Request) :
    AllSucceed server r ∨ NameMissing r ∨ (∃ err step, FailsAt server r err step) ∨
    (NamesPresent r ∧ ∃ job,
      (server.clientFactory r).Job (FormValue r ":pipeline_name") (FormValue r ":job")
        = (job, false, none)) ∨
    (NamesPresent r ∧ ∃ job build,
      (server.clientFactory r).Job (FormValue r ":pipeline_name") (FormValue r ":job")
        = (job, true, none) ∧
      (server.clientFactory r).JobBuild (FormValue r ":pipeline_name") (FormValue r ":job")
        (FormValue r ":build") = (build, false, none)) := by
  by_cases hn : NamesPresent r
  · obtain ⟨job, fj, ej, hJ⟩ : ∃ job fj ej, (server.clientFactory r).Job
        (FormValue r ":pipeline_name") (FormValue r ":job") = (job, fj, ej) := ⟨_, _, _, rfl⟩
    cases ej with
    | some err =>
      exact Or.inr (Or.inr (Or.inl ⟨err, Step.job, hn, by rw [hJ]⟩))
    | none =>
      cases fj with
      | false => exact Or.inr (Or.inr (Or.inr (Or.inl ⟨hn, job, hJ⟩)))
      | true =>
        obtain ⟨build, fb, eb, hB⟩ : ∃ build fb eb, (server.clientFactory r).JobBuild
            (FormValue r ":pipeline_name") (FormValue r ":job") (FormValue r ":build")
            = (build, fb, eb) := ⟨_, _, _, rfl⟩
        cases eb with
        | some err =>
          exact Or.inr (Or.inr (Or.inl ⟨err, Step.build, hn, job, hJ, by rw [hB]⟩))
        | none =>
          cases fb with
          | false => exact Or.inr (Or.inr (Or.inr (Or.inr ⟨hn, job, build, hJ, hB⟩)))
          | true =>
            obtain ⟨res, fr, er, hR⟩ : ∃ res fr er,
                (server.clientFactory r).BuildResources build.ID = (res, fr, er) :=
              ⟨_, _, _, rfl⟩
            cases er with
            | some err =>
              exact Or.inr (Or.inr (Or.inl
                ⟨err, Step.resources, hn, job, build, hJ, hB, by rw [hR]⟩))
            | none =>
              obtain ⟨bs, fh, eh, hH⟩ : ∃ bs fh eh, (server.clientFactory r).JobBuilds
                  (FormValue r ":pipeline_name") (FormValue r ":job") = (bs, fh, eh) :=
                ⟨_, _, _, rfl⟩
              cases eh with
              | some err =>
                exact Or.inr (Or.inr (Or.inl
                  ⟨err, Step.history, hn, job, build, hJ, hB, by rw [hR], by rw [hH]⟩))
              | none =>
                obtain ⟨pl, fp, ep, hP⟩ : ∃ pl fp ep, (server.clientFactory r).Pipeline
                    (FormValue r ":pipeline_name") = (pl, fp, ep) := ⟨_, _, _, rfl⟩
                cases ep with
                | some err =>
                  exact Or.inr (Or.inr (Or.inl
                    ⟨err, Step.pipeline, hn, job, build, hJ, hB, by rw [hR], by rw [hH],
                      by rw [hP]⟩))
                | none =>
                  exact Or.inl ⟨job, build, res, bs, pl, hn, hJ, hB, ⟨fr, hR⟩, ⟨fh, hH⟩,
                    ⟨fp, hP⟩⟩
  · exact Or.inr (Or.inl (nameMissing_of_not_present r hn))

theorem not_succeed_outcome (server : Server) (pipelineDB : PipelineDB) (r : Request)
    (h : ¬ AllSucceed server r) :
    (∃ code, statuses (GetBuild server pipelineDB r) = [code] ∧
      (code = 400 ∨ code = 404 ∨ code = 500)) ∧
    rendered (GetBuild server pipelineDB r) = [] ∧
    (fetchSteps (GetBuild server pipelineDB r) = [] ∨
      ∃ step, fetchSteps (GetBuild server pipelineDB r) = Step.upTo step) := by
  rcases classify server r with hs | hm | ⟨err, step, hf⟩ | ⟨hn, job, hJ⟩ | ⟨hn, job, build, hJ, hB⟩
  · exact absurd hs h
  · rw [trace_missing server pipelineDB r hm]
    exact ⟨⟨400, rfl, Or.inl rfl⟩, rfl, Or.inl rfl⟩
  · have ho := failsAt_outcome server pipelineDB r step err hf
    exact ⟨⟨500, ho.1, Or.inr (Or.inr rfl)⟩, ho.2.2.2, Or.inr ⟨step, ho.2.2.1⟩⟩
  · rw [trace_job_not_found server pipelineDB r hn job hJ]
    exact ⟨⟨404, rfl, Or.inr (Or.inl rfl)⟩, rfl, Or.inr ⟨Step.job, rfl⟩⟩
  · rw [trace_build_not_found server pipelineDB r hn job build hJ hB]
    exact ⟨⟨404, rfl, Or.inr (Or.inl rfl)⟩, rfl, Or.inr ⟨Step.build, rfl⟩⟩

theorem count_upTo_le_one (step s : Step) : (Step.upTo step).count s ≤ 1 := by
  cases step <;> cases s <;> decide

theorem succeeds_fetchSteps (server : Server) (pipelineDB : PipelineDB) (r : Request)
    (job : Job) (build : Build) (res : BuildInputsOutputs) (bs : List Build) (pl : Pipeline)
    (h : Succeeds server r job build res bs pl) :
    fetchSteps (GetBuild server pipelineDB r) = Step.upTo Step.pipeline := by
  rw [succeeds_trace server pipelineDB r job build res bs pl h]
  have hr := fetchSteps_renderLog server ⟨"get-build", job.Name, FormValue r ":build"⟩
    (viewModel pipelineDB job build res bs pl)
  unfold fetchSteps at hr ⊢
  rw [List.filterMap_append, hr]
  rfl

theorem succeeds_fetches (server : Server) (pipelineDB : PipelineDB) (r : Request)
    (job : Job) (build : Build) (res : BuildInputsOutputs) (bs : List Build) (pl : Pipeline)
    (h : Succeeds server r job build res bs pl) :
    fetches (GetBuild server pipelineDB r) =
      [Event.callJob (FormValue r ":pipeline_name") (FormValue r ":job"),
       Event.callJobBuild (FormValue r ":pipeline_name") (FormValue r ":job")
         (FormValue r ":build"),
       Event.callBuildResources build.ID,
       Event.callJobBuilds (FormValue r ":pipeline_name") (FormValue r ":job"),
       Event.callPipeline (FormValue r ":pipeline_name")] := by
  rw [succeeds_trace server pipelineDB r job build res bs pl h]
  have hr := fetches_renderLog server ⟨"get-build", job.Name, FormValue r ":build"⟩
    (viewModel pipelineDB job build res bs pl)
  unfold fetches at hr ⊢
  rw [List.filter_append, hr]
  rfl

theorem succeeds_statuses (server : Server) (pipelineDB : PipelineDB) (r : Request)
    (job : Job) (build : Build) (res : BuildInputsOutputs) (bs : List Build) (pl : Pipeline)
    (h : Succeeds server r job build res bs pl) :
    statuses (GetBuild server pipelineDB r) = [] := by
  rw [succeeds_trace server pipelineDB r job build res bs pl h]
  have hr := statuses_renderLog server ⟨"get-build", job.Name, FormValue r ":build"⟩
    (viewModel pipelineDB job build res bs pl)
  unfold statuses at hr ⊢
  rw [List.filterMap_append, hr]
  rfl

theorem mem_rendered (t : List Event) (td : TemplateData) :
    td ∈ rendered t ↔ Event.execute td ∈ t := by
  unfold rendered
  rw [List.mem_filterMap]
  constructor
  · rintro ⟨e, he, h⟩
    cases e <;> simp at h
    subst h
    exact he
  · intro h
    exact ⟨_, h, rfl⟩

theorem succeeds_logs (server : Server) (pipelineDB : PipelineDB) (r : Request)
    (job : Job) (build : Build) (res : BuildInputsOutputs) (bs : List Build) (pl : Pipeline)
    (h : Succeeds server r job build res bs pl) :
    logs (GetBuild server pipelineDB r) =
      logs (renderLog server ⟨"get-build", job.Name, FormValue r ":build"⟩
        (viewModel pipelineDB job build res bs pl)) := by
  rw [succeeds_trace server pipelineDB r job build res bs pl h]
  unfold logs
  rw [List.filterMap_append]
  rfl

/-- C7, as the code has it: no fetch is called twice: in every request each of
the five data fetches is called at most once.  When the names are present, job
and build are found and no fetch returns an error, the calls are exactly
`Job(pipelineName, jobName)`, `JobBuild(pipelineName, jobName, buildName)`,
`BuildResources(ID of the build)`, `JobBuilds(pipelineName, jobName)`,
`Pipeline(pipelineName)`, in this order, all before the template is executed,
and none follows it.  Every request that fails before the render step (a name
is missing, the job or the build is not found, or a fetch returns an error)
writes exactly one status code, one of 400, 404 and 500, and does not execute
the template. -/
theorem fetch_once_in_order (server : Server) (pipelineDB : PipelineDB) (r : Request) :
    (∀ step : Step, (fetchSteps (GetBuild server pipelineDB r)).count step ≤ 1) ∧
    (∀ (job : Job) (build : Build) (res : BuildInputsOutputs) (bs : List Build)
      (pl : Pipeline), Succeeds server r job build res bs pl →
      fetches (GetBuild server pipelineDB r) =
        [Event.callJob (FormValue r ":pipeline_name") (FormValue r ":job"),
         Event.callJobBuild (FormValue r ":pipeline_name") (FormValue r ":job")
           (FormValue r ":build"),
         Event.callBuildResources build.ID,
         Event.callJobBuilds (FormValue r ":pipeline_name") (FormValue r ":job"),
         Event.callPipeline (FormValue r ":pipeline_name")] ∧
      ∃ td tail, GetBuild server pipelineDB r =
        [Event.buildClient,
         Event.callJob (FormValue r ":pipeline_name") (FormValue r ":job"),
         Event.callJobBuild (FormValue r ":pipeline_name") (FormValue r ":job")
           (FormValue r ":build"),
         Event.callBuildResources build.ID,
         Event.callJobBuilds (FormValue r ":pipeline_name") (FormValue r ":job"),
         Event.callPipeline (FormValue r ":pipeline_name"),
         Event.getPipelineName,
         Event.execute td] ++ tail ∧
        fetches tail = [] ∧ rendered tail = []) ∧
    (¬ AllSucceed server r →
      (∃ code, statuses (GetBuild server pipelineDB r) = [code] ∧
        (code = 400 ∨ code = 404 ∨ code = 500)) ∧
      rendered (GetBuild server pipelineDB r) = []) := by
  refine ⟨?_, ?_, ?_⟩
  · intro step
    by_cases hs : AllSucceed server r
    · obtain ⟨job, build, res, bs, pl, h⟩ := hs
      rw [succeeds_fetchSteps server pipelineDB r job build res bs pl h]
      exact count_upTo_le_one Step.pipeline step
    · rcases (not_succeed_outcome server pipelineDB r hs).2.2 with h0 | ⟨s, h1⟩
      · rw [h0]; simp
      · rw [h1]; exact count_upTo_le_one s step
  · intro job build res bs pl h
    exact ⟨succeeds_fetches server pipelineDB r job build res bs pl h,
      viewModel pipelineDB job build res bs pl,
      renderLog server ⟨"get-build", job.Name, FormValue r ":build"⟩
        (viewModel pipelineDB job build res bs pl),
      succeeds_trace server pipelineDB r job build res bs pl h,
      fetches_renderLog _ _ _, rendered_renderLog _ _ _⟩
  · intro hs
    exact ⟨(not_succeed_outcome server pipelineDB r hs).1,
      (not_succeed_outcome server pipelineDB r hs).2.1⟩

theorem fetch_once_in_order_witness :
    (Succeeds okServer fullRequest ⟨"unit", 7⟩ ⟨42, 1⟩ ⟨[⟨5⟩], []⟩ [⟨41, 0⟩, ⟨42, 1⟩]
        ⟨"other", [⟨"build", ["unit", "lint"]⟩, ⟨"deploy", ["release"]⟩]⟩ ∧
      fetches (GetBuild okServer mainDB fullRequest) =
        [Event.callJob "p1" "unit", Event.callJobBuild "p1" "unit" "3",
         Event.callBuildResources 42, Event.callJobBuilds "p1" "unit",
         Event.callPipeline "p1"]) ∧
    (¬ AllSucceed okServer noBuildRequest ∧
      (∃ code, statuses (GetBuild okServer mainDB noBuildRequest) = [code] ∧
        (code = 400 ∨ code = 404 ∨ code = 500)) ∧
      rendered (GetBuild okServer mainDB noBuildRequest) = []) :=
  have hn : ¬ AllSucceed okServer noBuildRequest :=
    fun ⟨_, _, _, _, _, h, _⟩ => h.2.2 (by decide)
  ⟨⟨okServer_succeeds,
      ((fetch_once_in_order okServer mainDB fullRequest).2.1 ⟨"unit", 7⟩ ⟨42, 1⟩ ⟨[⟨5⟩], []⟩
        [⟨41, 0⟩, ⟨42, 1⟩] ⟨"other", [⟨"build", ["unit", "lint"]⟩, ⟨"deploy", ["release"]⟩]⟩
        okServer_succeeds).1⟩,
    ⟨hn, (fetch_once_in_order okServer mainDB noBuildRequest).2.2 hn⟩⟩

/-- C7 as stated fails for a request that fails in the render step: with all
fetches succeeding and a template that returns an error, the request fails
(the handler logs it at fatal severity), yet the template has been executed
once and the handler has written no status code. -/
theorem render_failure_after_render :
    AllSucceed renderFailServer fullRequest ∧
    (logs (GetBuild renderFailServer mainDB fullRequest)).map (fun entry => entry.level)
      = [LogLevel.fatal] ∧
    (rendered (GetBuild renderFailServer mainDB fullRequest)).length = 1 ∧
    statuses (GetBuild renderFailServer mainDB fullRequest) = [] ∧
    ¬ ((statuses (GetBuild renderFailServer mainDB fullRequest)).length = 1 ∧
        rendered (GetBuild renderFailServer mainDB fullRequest) = []) :=
  ⟨⟨⟨"unit", 7⟩, ⟨42, 1⟩, ⟨[⟨5⟩], []⟩, [⟨41, 0⟩, ⟨42, 1⟩],
      ⟨"other", [⟨"build", ["unit", "lint"]⟩, ⟨"deploy", ["release"]⟩]⟩,
      by decide, by decide, by decide, ⟨true, by decide⟩, ⟨true, by decide⟩,
      ⟨true, by decide⟩⟩,
    by decide, by decide, by decide, by decide⟩

/-! ## Logging -/

/-- C8, as the code has it: a request rejected for a missing parameter gets
status 400 and exactly one log entry, emitted at error severity on the logger
of the server, with the action `failed-to-get-names` and the error
`Missing required parameters`. -/
theorem missing_parameters_logged_as_error (server : Server) (pipelineDB : PipelineDB)
    (r : Request)
    (h : FormValue r ":pipeline_name" = "" ∨ FormValue r ":job" = "" ∨
      FormValue r ":build" = "") :
    logs (GetBuild server pipelineDB r) =
      [⟨LogLevel.error, none, "failed-to-get-names", ⟨"Missing required parameters"⟩,
        none⟩] ∧
    statuses (GetBuild server pipelineDB r) = [400] := by
  rw [trace_missing server pipelineDB r h]
  exact ⟨rfl, rfl⟩

theorem missing_parameters_logged_as_error_witness :
    FormValue emptyRequest ":pipeline_name" = "" ∧
    logs (GetBuild okServer mainDB emptyRequest) =
      [⟨LogLevel.error, none, "failed-to-get-names", ⟨"Missing required parameters"⟩,
        none⟩] ∧
    statuses (GetBuild okServer mainDB emptyRequest) = [400] :=
  ⟨by decide, missing_parameters_logged_as_error okServer mainDB emptyRequest
    (Or.inl (by decide))⟩

/-- C8 as stated fails: the request without a build name is rejected with
status 400, and its only log entry is at error severity, not informational. -/
theorem missing_parameters_not_informational :
    FormValue noBuildRequest ":build" = "" ∧
    statuses (GetBuild okServer mainDB noBuildRequest) = [400] ∧
    ¬ (∀ entry ∈ logs (GetBuild okServer mainDB noBuildRequest),
        entry.level = LogLevel.info ∧ entry.level ≠ LogLevel.error ∧
        entry.level ≠ LogLevel.fatal) := by
  refine ⟨by decide, by decide, ?_⟩
  intro hall
  have hmem : (⟨LogLevel.error, none, "failed-to-get-names",
      ⟨"Missing required parameters"⟩, none⟩ : LogEntry)
      ∈ logs (GetBuild okServer mainDB noBuildRequest) := by decide
  exact absurd (hall _ hmem).1 (by decide)

/-- C9: in every request in which the template is executed, with view model
`td`, the handler writes no status code (so none of 400, 404, 500) and executes
the template just once.  When the template returns an error, the handler emits
exactly one log entry: at fatal severity, with the action
`failed-to-build-template`, that error and the same view model `td`; so no
entry at error severity.  When the template returns no error, the handler
emits no log entry at all. -/
theorem render_outcome (server : Server) (pipelineDB : PipelineDB) (r : Request)
    (td : TemplateData) (h : Event.execute td ∈ GetBuild server pipelineDB r) :
    rendered (GetBuild server pipelineDB r) = [td] ∧
    statuses (GetBuild server pipelineDB r) = [] ∧
    (∀ err, server.template td = some err →
      ∃ session, logs (GetBuild server pipelineDB r) =
        [⟨LogLevel.fatal, session, "failed-to-build-template", err, some td⟩]) ∧
    (server.template td = none → logs (GetBuild server pipelineDB r) = []) := by
  by_cases hs : AllSucceed server r
  · obtain ⟨job, build, res, bs, pl, hs⟩ := hs
    have hr := succeeds_rendered server pipelineDB r job build res bs pl hs
    have htd : td = viewModel pipelineDB job build res bs pl := by
      have hm := (mem_rendered _ td).2 h
      rw [hr] at hm
      simpa using hm
    have hl := succeeds_logs server pipelineDB r job build res bs pl hs
    rw [← htd] at hr hl
    refine ⟨hr, succeeds_statuses server pipelineDB r job build res bs pl hs, ?_, ?_⟩
    · intro err he
      refine ⟨some ⟨"get-build", job.Name, FormValue r ":build"⟩, ?_⟩
      rw [hl]
      simp [renderLog, he, logs]
    · intro he
      rw [hl]
      simp [renderLog, he, logs]
  · have hm := (mem_rendered _ td).2 h
    rw [(not_succeed_outcome server pipelineDB r hs).2.1] at hm
    simp at hm

theorem render_outcome_witness :
    Event.execute ⟨[⟨"build", true⟩, ⟨"deploy", false⟩], ⟨"unit", 7⟩, [⟨41, 0⟩, ⟨42, 1⟩],
        ⟨42, 1⟩, [⟨5⟩], "main"⟩ ∈ GetBuild renderFailServer mainDB fullRequest ∧
    statuses (GetBuild renderFailServer mainDB fullRequest) = [] ∧
    logs (GetBuild renderFailServer mainDB fullRequest) =
      [⟨LogLevel.fatal, some ⟨"get-build", "unit", "3"⟩, "failed-to-build-template",
        ⟨"template: broken"⟩,
        some ⟨[⟨"build", true⟩, ⟨"deploy", false⟩], ⟨"unit", 7⟩, [⟨41, 0⟩, ⟨42, 1⟩],
          ⟨42, 1⟩, [⟨5⟩], "main"⟩⟩] ∧
    logs (GetBuild okServer mainDB fullRequest) = [] :=
  ⟨by decide,
    (render_outcome renderFailServer mainDB fullRequest
      ⟨[⟨"build", true⟩, ⟨"deploy", false⟩], ⟨"unit", 7⟩, [⟨41, 0⟩, ⟨42, 1⟩],
        ⟨42, 1⟩, [⟨5⟩], "main"⟩ (by decide)).2.1,
    by decide,
    (render_outcome okServer mainDB fullRequest
      ⟨[⟨"build", true⟩, ⟨"deploy", false⟩], ⟨"unit", 7⟩, [⟨41, 0⟩, ⟨42, 1⟩],
        ⟨42, 1⟩, [⟨5⟩], "main"⟩ (by decide)).2.2.2 rfl⟩

/-! ## Errors and found flags -/

theorem withFound_trace (server : Server) (pipelineDB : PipelineDB) (r : Request)
    (f1 : Int → Bool) (f2 : String → String → Bool) (f3 : String → Bool) :
    GetBuild (server.withFound f1 f2 f3) pipelineDB r = GetBuild server pipelineDB r := by
  by_cases hn : NamesPresent r
  · obtain ⟨job, fj, ej, hJ⟩ : ∃ job fj ej, (server.clientFactory r).Job
        (FormValue r ":pipeline_name") (FormValue r ":job") = (job, fj, ej) := ⟨_, _, _, rfl⟩
    obtain ⟨build, fb, eb, hB⟩ : ∃ build fb eb, (server.clientFactory r).JobBuild
        (FormValue r ":pipeline_name") (FormValue r ":job") (FormValue r ":build")
        = (build, fb, eb) := ⟨_, _, _, rfl⟩
    obtain ⟨res, fr, er, hR⟩ : ∃ res fr er,
        (server.clientFactory r).BuildResources build.ID = (res, fr, er) := ⟨_, _, _, rfl⟩
    obtain ⟨bs, fh, eh, hH⟩ : ∃ bs fh eh, (server.clientFactory r).JobBuilds
        (FormValue r ":pipeline_name") (FormValue r ":job") = (bs, fh, eh) := ⟨_, _, _, rfl⟩
    obtain ⟨pl, fp, ep, hP⟩ : ∃ pl fp ep, (server.clientFactory r).Pipeline
        (FormValue r ":pipeline_name") = (pl, fp, ep) := ⟨_, _, _, rfl⟩
    simp only [GetBuild, getNames_of_present r hn, Server.withFound, Client.withFound,
      hJ, hB, hR, hH, hP]
    cases ej <;> cases fj <;> try rfl
    cases eb <;> cases fb <;> try rfl
    simp only [hR]
    cases er <;> try rfl
    cases eh <;> try rfl
    cases ep <;> rfl
  · have hm := nameMissing_of_not_present r hn
    rw [trace_missing _ pipelineDB r hm, trace_missing _ pipelineDB r hm]

/-- C10: an error takes precedence over not-found.  With the names present,
when the job lookup returns an error the status is 500, whatever its found
flag; with the job found, when the build lookup returns an error the status
is 500, whatever its found flag; in both cases 404 is not written.  And the
found flags returned by `BuildResources`, `JobBuilds` and `Pipeline` have no
effect: replacing them by any other flags leaves the whole trace of the
handler (statuses, log entries, view model) unchanged. -/
theorem error_before_not_found (server : Server) (pipelineDB : PipelineDB) (r : Request) :
    (∀ (job : Job) (found : Bool) (err : GoError), NamesPresent r →
      (server.clientFactory r).Job (FormValue r ":pipeline_name") (FormValue r ":job")
        = (job, found, some err) →
      statuses (GetBuild server pipelineDB r) = [500] ∧
      404 ∉ statuses (GetBuild server pipelineDB r)) ∧
    (∀ (job : Job) (build : Build) (found : Bool) (err : GoError), NamesPresent r →
      (server.clientFactory r).Job (FormValue r ":pipeline_name") (FormValue r ":job")
        = (job, true, none) →
      (server.clientFactory r).JobBuild (FormValue r ":pipeline_name") (FormValue r ":job")
        (FormValue r ":build") = (build, found, some err) →
      statuses (GetBuild server pipelineDB r) = [500] ∧
      404 ∉ statuses (GetBuild server pipelineDB r)) ∧
    (∀ (f1 : Int → Bool) (f2 : String → String → Bool) (f3 : String → Bool),
      GetBuild (server.withFound f1 f2 f3) pipelineDB r = GetBuild server pipelineDB r) := by
  refine ⟨?_, ?_, withFound_trace server pipelineDB r⟩
  · intro job found err hn hJ
    rw [trace_job_error server pipelineDB r hn err (by rw [hJ])]
    exact ⟨rfl, by simp [statuses]⟩
  · intro job build found err hn hJ hB
    rw [trace_build_error server pipelineDB r hn job err hJ (by rw [hB])]
    exact ⟨rfl, by simp [statuses]⟩

theorem error_before_not_found_witness :
    (NamesPresent fullRequest ∧
      (jobErrorServer.clientFactory fullRequest).Job "p1" "unit"
        = (⟨"unit", 7⟩, false, some ⟨"connection refused"⟩) ∧
      statuses (GetBuild jobErrorServer mainDB fullRequest) = [500]) ∧
    ((buildErrorServer.clientFactory fullRequest).JobBuild "p1" "unit" "3"
        = (⟨0, 0⟩, false, some ⟨"connection reset"⟩) ∧
      statuses (GetBuild buildErrorServer mainDB fullRequest) = [500]) :=
  ⟨⟨by decide, by decide,
      ((error_before_not_found jobErrorServer mainDB fullRequest).1 ⟨"unit", 7⟩ false
        ⟨"connection refused"⟩ (by decide) (by decide)).1⟩,
    ⟨by decide,
      ((error_before_not_found buildErrorServer mainDB fullRequest).2.1 ⟨"unit", 7⟩ ⟨0, 0⟩
        false ⟨"connection reset"⟩ (by decide) (by decide) (by decide)).1⟩⟩

end getbuild
